import Mathlib

/-!
Verification of the VyOS cloud-init provisioning hooks: the disk
enumerator and selector of `cc_vyos_install.py` and the network cleanup
of `cc_vyos_ifupdown.py`, embedded shallowly.  Python dicts are modelled
as association lists in insertion order; Python integers as `Nat`/`Int`;
fallible host interaction as `Except`.
-/

/-- Reserved space from cc_vyos_install.py line 43: 2 MB for the header,
1 MB for the BIOS partition, 256 MB for EFI. -/
def CONST_RESERVED_SPACE : Nat := (2 + 1 + 256) * 1024 ^ 2

/-- One block-device record of the parsed `lsblk -Jbp` JSON output; the
fields read by `disks_size` are `name`, `size` and `type`. -/
structure BlockDevice where
  name : String
  size : Nat
  type : String
deriving DecidableEq, Repr

/-- Python `dict.update` with a single key on an insertion-ordered
association list: replace the value in place when the key is present,
otherwise append the new pair. -/
def dictUpdate (m : List (String × Nat)) (k : String) (v : Nat) :
    List (String × Nat) :=
  if m.any fun p => p.1 = k then
    m.map fun p => if p.1 = k then (k, v) else p
  else m ++ [(k, v)]

/-- One iteration of the `disks_size` loop (lines 71-73): keep a record
only when its `type` field is `"disk"`. -/
def disksStep (acc : List (String × Nat)) (device : BlockDevice) :
    List (String × Nat) :=
  if device.type = "disk" then dictUpdate acc device.name device.size else acc

/-- `disks_size` (lines 63-74) applied to an already-parsed block-device
list: build the name-to-size mapping of the records whose `type` is
`"disk"`. -/
def disks_size (blockdevices : List BlockDevice) : List (String × Nat) :=
  blockdevices.foldl disksStep []

/-- The failure mode of the enumerator: the host query was unavailable or
returned data that cannot be parsed into block-device records. -/
inductive QueryError where
  | queryError
deriving DecidableEq, Repr

/-- `disks_size` including its fallible host interaction: `none` models a
raw `lsblk` invocation that is unavailable or whose output cannot be
parsed, in which case the Python exception propagates, modelled as
`Except.error`. -/
def disks_size_run :
    Option (List BlockDevice) → Except QueryError (List (String × Nat))
  | none => Except.error QueryError.queryError
  | some blockdevices => Except.ok (disks_size blockdevices)

/-- The `for` loop of `find_disk` (lines 87-92): return the first entry
whose size is strictly greater than the literal 2147483648 from line 89,
else the sentinel. -/
def find_disk_loop : List (String × Nat) → String × Nat
  | [] => ("", 0)
  | (disk_name, disk_size) :: rest =>
    if 2147483648 < disk_size then (disk_name, disk_size)
    else find_disk_loop rest

/-- `find_disk` (lines 77-92): empty-mapping check, then the loop over the
available disks in insertion order; `("", 0)` is the empty result. -/
def find_disk (disks_available : List (String × Nat)) : String × Nat :=
  if disks_available.isEmpty then ("", 0) else find_disk_loop disks_available

/-- Substring containment on character lists, auxiliary for the Python
`in` operator on strings. -/
def listContainsSub (pat : List Char) : List Char → Bool
  | [] => pat.isEmpty
  | c :: cs => pat.isPrefixOf (c :: cs) || listContainsSub pat cs

/-- Python `pat in s` for strings: `pat` occurs contiguously in `s`. -/
def containsSub (s pat : String) : Bool := listContainsSub pat.data s.data

/-- Line 189: the rootfs size in KB, with Python floor division. -/
def rootfs_size (target_size : Nat) : Int :=
  Int.fdiv ((target_size : Int) - (CONST_RESERVED_SPACE : Int)) 1024

/-- The disk mutations performed by `handle` (lines 193-199). -/
inductive DiskAction where
  | disk_cleanup (target : String)
  | parttable_create (target : String) (rootfs : Int)
  | filesystem_create (partition : String) (fs : String)
deriving DecidableEq, Repr

/-- The disk-mutating portion of `handle` (lines 175-199): given the pair
returned by `find_disk`, abort with no actions when the name is the empty
sentinel, otherwise emit the cleanup/partition/filesystem sequence. -/
def handle_disk_actions (target : String × Nat) : List DiskAction :=
  let install_target := target.1
  let target_size := target.2
  if install_target = "" then []
  else
    let partPfx : String :=
      if containsSub install_target "nvme" || containsSub install_target "mmcblk"
      then "p" else ""
    [DiskAction.disk_cleanup install_target,
     DiskAction.parttable_create install_target (rootfs_size target_size),
     DiskAction.filesystem_create (install_target ++ partPfx ++ "2") "efi",
     DiskAction.filesystem_create (install_target ++ partPfx ++ "3") "ext4"]

/-- The host state observed by `network_cleanup` of cc_vyos_ifupdown.py:
whether each of the two configuration files exists and whether the
corresponding cleanup work raises. -/
structure HostState where
  net_config_exists : Bool
  iface_cleanup_fails : Bool
  udev_rules_exists : Bool
  udev_unlink_fails : Bool
deriving DecidableEq, Repr

/-- Failures that can arise during `network_cleanup`. -/
inductive CleanupError where
  | net_cleanup_error
  | udev_unlink_error
deriving DecidableEq, Repr

/-- The body of the `try` block (lines 34-50): ifquery, ifdown per
interface, and removal of the 50-cloud-init file; any raised exception is
modelled as an error value. -/
def net_config_cleanup (s : HostState) : Except CleanupError Unit :=
  if s.net_config_exists then
    if s.iface_cleanup_fails then Except.error CleanupError.net_cleanup_error
    else Except.ok ()
  else Except.ok ()

/-- Lines 54-57: unlink of the udev persistent-net rules file when it
exists; this code is not wrapped in any `try`/`except`. -/
def udev_rules_cleanup (s : HostState) : Except CleanupError Unit :=
  if s.udev_rules_exists then
    if s.udev_unlink_fails then Except.error CleanupError.udev_unlink_error
    else Except.ok ()
  else Except.ok ()

/-- `network_cleanup` (lines 29-57): a failure of the first block is
caught by the `except` clause and only logged (lines 51-52), after which
execution reaches the udev block, which runs outside any handler. -/
def network_cleanup (s : HostState) : Except CleanupError Unit :=
  match net_config_cleanup s with
  | Except.error _ => udev_rules_cleanup s
  | Except.ok () => udev_rules_cleanup s

/-! ### Helper lemmas -/

/-- The empty-mapping guard of `find_disk` is redundant with the loop. -/
theorem find_disk_eq_loop (l : List (String × Nat)) :
    find_disk l = find_disk_loop l := by
  cases l <;> rfl

/-- The loop returns the first entry above the threshold, `List.find?`
style. -/
theorem find_disk_loop_eq_find? (l : List (String × Nat)) :
    find_disk_loop l
      = ((l.find? fun p => decide (2147483648 < p.2)).getD ("", 0)) := by
  induction l with
  | nil => rfl
  | cons a l ih =>
    obtain ⟨n, s⟩ := a
    by_cases h : 2147483648 < s
    · simp [find_disk_loop, List.find?, h]
    · simp [find_disk_loop, List.find?, h, ih]

/-- `find_disk` as a first-match search. -/
theorem find_disk_eq_find? (l : List (String × Nat)) :
    find_disk l
      = ((l.find? fun p => decide (2147483648 < p.2)).getD ("", 0)) := by
  rw [find_disk_eq_loop, find_disk_loop_eq_find?]

/-! ### Claims -/

/-- C1 counterexample: `find_disk` is not order-independent.  The same
mapping presented in two insertion orders (the lists are permutations of
one another) yields two different results, and the second result is not
the lexicographically first qualifying name. -/
theorem C1_counterexample :
    List.Perm [("sdb", 3221225472), ("sdc", 5368709120)]
      [("sdc", 5368709120), ("sdb", 3221225472)] ∧
    find_disk [("sdb", 3221225472), ("sdc", 5368709120)]
      = ("sdb", 3221225472) ∧
    find_disk [("sdc", 5368709120), ("sdb", 3221225472)]
      = ("sdc", 5368709120) := by
  refine ⟨?_, ?_, ?_⟩ <;> decide

/-- C1 (amended): `find_disk` is a pure function of the ordered device
list, returning the first entry in iteration (insertion) order whose size
strictly exceeds 2147483648, and on the scenario input in insertion order
sda, sdb, sdc it returns ("sdb", 3221225472). -/
theorem C1_first_in_iteration_order :
    (∀ l : List (String × Nat),
      find_disk l
        = ((l.find? fun p => decide (2147483648 < p.2)).getD ("", 0))) ∧
    find_disk [("sda", 2000000000), ("sdb", 3221225472), ("sdc", 5368709120)]
      = ("sdb", 3221225472) := by
  exact ⟨find_disk_eq_find?, by decide⟩

/-- C2: an entry qualifies iff its size strictly exceeds 2147483648:
`find_disk` never returns a pair of size exactly 2147483648, any returned
pair with a nonempty name exceeds the threshold, and an entry of size
2147483649 preceded only by non-qualifying entries is returned. -/
theorem C2_threshold_boundary :
    (∀ (l : List (String × Nat)) (n : String),
      find_disk l ≠ (n, 2147483648)) ∧
    (∀ l : List (String × Nat),
      (find_disk l).1 ≠ "" → 2147483648 < (find_disk l).2) ∧
    (∀ (l1 l2 : List (String × Nat)) (n : String),
      (∀ p ∈ l1, ¬ 2147483648 < p.2) →
      find_disk (l1 ++ (n, 2147483649) :: l2) = (n, 2147483649)) := by
  refine ⟨?_, ?_, ?_⟩
  · intro l n h
    rw [find_disk_eq_find?] at h
    rcases hf : l.find? fun p => decide (2147483648 < p.2) with _ | a
    · rw [hf] at h
      simp at h
    · rw [hf] at h
      have hq := List.find?_some hf
      obtain ⟨a1, a2⟩ := a
      simp at hq h
      omega
  · intro l h
    rw [find_disk_eq_find?] at h ⊢
    rcases hf : l.find? fun p => decide (2147483648 < p.2) with _ | a
    · rw [hf] at h
      simp at h
    · rw [hf]
      have := List.find?_some hf
      simpa using this
  · intro l1 l2 n h
    rw [find_disk_eq_find?]
    have h1 : l1.find? (fun p => decide (2147483648 < p.2)) = none := by
      rw [List.find?_eq_none]
      intro p hp
      simpa using h p hp
    rw [List.find?_append, h1, Option.none_or,
      List.find?_cons_of_pos l2 (by norm_num)]
    rfl

/-- C2 witness: with a threshold-sized disk first, the 2147483649-byte
disk is the one selected. -/
theorem C2_threshold_boundary_witness :
    find_disk [("sda", 2147483648), ("sdb", 2147483649)]
      = ("sdb", 2147483649) :=
  C2_threshold_boundary.2.2 [("sda", 2147483648)] [] "sdb" (by decide)

/-- C3: any result of `find_disk` with a nonempty name is an entry of the
input mapping whose size strictly exceeds 2147483648; the result is
always one complete (name, size) pair. -/
theorem C3_result_sound :
    ∀ (l : List (String × Nat)) (n : String) (s : Nat),
      find_disk l = (n, s) → n ≠ "" → (n, s) ∈ l ∧ 2147483648 < s := by
  intro l n s h hn
  rw [find_disk_eq_find?] at h
  rcases hf : l.find? fun p => decide (2147483648 < p.2) with _ | a
  · rw [hf] at h
    simp at h
    exact absurd h.1.symm hn
  · rw [hf] at h
    simp at h
    subst h
    refine ⟨List.mem_of_find?_eq_some hf, ?_⟩
    have := List.find?_some hf
    simpa using this

/-- C3 witness at a concrete qualifying input. -/
theorem C3_result_sound_witness :
    ("sda", 3000000000) ∈ [("sda", 3000000000)] ∧
      2147483648 < 3000000000 :=
  C3_result_sound [("sda", 3000000000)] "sda" 3000000000 (by decide)
    (by decide)

/-- C4: the empty mapping gives the ("", 0) sentinel, the all-small
mapping {"sda": 1000000000} gives the sentinel, and in general any
mapping with no qualifying entry gives the sentinel, as an ordinary
return value rather than an exception. -/
theorem C4_empty_and_no_qualifier :
    find_disk [] = ("", 0) ∧
    find_disk [("sda", 1000000000)] = ("", 0) ∧
    (∀ l : List (String × Nat),
      (∀ p ∈ l, ¬ 2147483648 < p.2) → find_disk l = ("", 0)) := by
  refine ⟨rfl, by decide, ?_⟩
  intro l h
  rw [find_disk_eq_find?]
  have h1 : l.find? (fun p => decide (2147483648 < p.2)) = none := by
    rw [List.find?_eq_none]
    intro p hp
    simpa using h p hp
  rw [h1]
  rfl

/-- C4 witness: a further concrete non-qualifying mapping maps to the
sentinel through the general statement. -/
theorem C4_empty_and_no_qualifier_witness :
    find_disk [("sdx", 42), ("sdy", 2147483648)] = ("", 0) :=
  C4_empty_and_no_qualifier.2.2 [("sdx", 42), ("sdy", 2147483648)]
    (by decide)

/-- Keys after a `dictUpdate` are the old keys together with the updated
key. -/
theorem mem_keys_dictUpdate (m : List (String × Nat)) (k : String)
    (v : Nat) (n : String) :
    n ∈ (dictUpdate m k v).map Prod.fst
      ↔ n ∈ m.map Prod.fst ∨ n = k := by
  unfold dictUpdate
  by_cases hk : m.any fun p => p.1 = k
  · rw [if_pos hk]
    have hkm : k ∈ m.map Prod.fst := by
      rcases List.any_eq_true.mp hk with ⟨p, hp, hpk⟩
      simp at hpk
      exact hpk ▸ List.mem_map_of_mem Prod.fst hp
    have hfun :
        (fun p : String × Nat =>
          Prod.fst (if p.1 = k then (k, v) else p)) = Prod.fst := by
      funext p
      by_cases hp : p.1 = k
      · simp [hp]
      · simp [hp]
    rw [List.map_map, Function.comp_def, hfun]
    constructor
    · exact Or.inl
    · rintro (h | rfl)
      · exact h
      · exact hkm
  · rw [if_neg hk]
    simp

/-- Every entry of a `dictUpdate` is an old entry or the updated pair. -/
theorem mem_dictUpdate (m : List (String × Nat)) (k : String) (v : Nat)
    (n : String) (s : Nat) (h : (n, s) ∈ dictUpdate m k v) :
    (n, s) ∈ m ∨ (n = k ∧ s = v) := by
  unfold dictUpdate at h
  by_cases hk : m.any fun p => p.1 = k
  · rw [if_pos hk] at h
    rcases List.mem_map.mp h with ⟨p, hp, hpe⟩
    by_cases hpk : p.1 = k
    · rw [if_pos hpk] at hpe
      right
      exact ⟨congrArg Prod.fst hpe.symm, congrArg Prod.snd hpe.symm⟩
    · rw [if_neg hpk] at hpe
      left
      exact hpe ▸ hp
  · rw [if_neg hk] at h
    rcases List.mem_append.mp h with h | h
    · exact Or.inl h
    · right
      simp at h
      exact ⟨h.1, h.2⟩

/-- Key membership across the `disks_size` fold: a name is a key iff it
was already one or some record of the remaining list carries it with
type `"disk"`. -/
theorem mem_keys_foldl_disksStep (blk : List BlockDevice) :
    ∀ (acc : List (String × Nat)) (n : String),
      n ∈ (blk.foldl disksStep acc).map Prod.fst
        ↔ n ∈ acc.map Prod.fst
            ∨ ∃ d ∈ blk, d.type = "disk" ∧ d.name = n := by
  induction blk with
  | nil => simp
  | cons d blk ih =>
    intro acc n
    rw [List.foldl_cons, ih]
    unfold disksStep
    by_cases ht : d.type = "disk"
    · rw [if_pos ht, mem_keys_dictUpdate]
      constructor
      · rintro ((h | rfl) | h)
        · exact Or.inl h
        · exact Or.inr ⟨d, List.mem_cons_self d blk, ht, rfl⟩
        · rcases h with ⟨d', hd', h1, h2⟩
          exact Or.inr ⟨d', List.mem_cons_of_mem d hd', h1, h2⟩
      · rintro (h | ⟨d', hd', h1, h2⟩)
        · exact Or.inl (Or.inl h)
        · rcases List.mem_cons.mp hd' with rfl | hd'
          · exact Or.inl (Or.inr h2.symm)
          · exact Or.inr ⟨d', hd', h1, h2⟩
    · rw [if_neg ht]
      constructor
      · rintro (h | ⟨d', hd', h1, h2⟩)
        · exact Or.inl h
        · exact Or.inr ⟨d', List.mem_cons_of_mem d hd', h1, h2⟩
      · rintro (h | ⟨d', hd', h1, h2⟩)
        · exact Or.inl h
        · rcases List.mem_cons.mp hd' with rfl | hd'
          · exact absurd h1 ht
          · exact Or.inr ⟨d', hd', h1, h2⟩

/-- Entry provenance across the `disks_size` fold: every entry was in the
accumulator or comes from a `"disk"`-typed record. -/
theorem mem_foldl_disksStep (blk : List BlockDevice) :
    ∀ (acc : List (String × Nat)) (n : String) (s : Nat),
      (n, s) ∈ blk.foldl disksStep acc →
      (n, s) ∈ acc
        ∨ ∃ d ∈ blk, d.type = "disk" ∧ d.name = n ∧ d.size = s := by
  induction blk with
  | nil => simp
  | cons d blk ih =>
    intro acc n s h
    rw [List.foldl_cons] at h
    rcases ih (disksStep acc d) n s h with h' | ⟨d', hd', h1, h2, h3⟩
    · unfold disksStep at h'
      by_cases ht : d.type = "disk"
      · rw [if_pos ht] at h'
        rcases mem_dictUpdate acc d.name d.size n s h' with h'' | ⟨h1, h2⟩
        · exact Or.inl h''
        · exact Or.inr ⟨d, List.mem_cons_self d blk, ht, h1.symm, h2.symm⟩
      · rw [if_neg ht] at h'
        exact Or.inl h'
    · exact Or.inr ⟨d', List.mem_cons_of_mem d hd', h1, h2, h3⟩

/-- C5: the enumerator's output keys are exactly the names carried by a
record whose `type` field is `"disk"`, and every entry's size originates
from such a record; hence a name carried only by non-disk records (a
partition such as "sda1") never appears in the output. -/
theorem C5_filter_correct :
    ∀ (blk : List BlockDevice) (n : String),
      (n ∈ (disks_size blk).map Prod.fst
        ↔ ∃ d ∈ blk, d.type = "disk" ∧ d.name = n) ∧
      (∀ s : Nat, (n, s) ∈ disks_size blk →
        ∃ d ∈ blk, d.type = "disk" ∧ d.name = n ∧ d.size = s) := by
  intro blk n
  constructor
  · rw [disks_size, mem_keys_foldl_disksStep]
    simp
  · intro s h
    rcases mem_foldl_disksStep blk [] n s h with h' | h'
    · simp at h'
    · exact h'

/-- C5 witness: with one disk record and one partition record sharing the
"sda" stem, the disk is in the output and the partition's provenance
resolves back to the disk-typed record. -/
theorem C5_filter_correct_witness :
    ∃ d ∈ [BlockDevice.mk "sda" 5368709120 "disk",
           BlockDevice.mk "sda1" 5368708096 "part"],
      d.type = "disk" ∧ d.name = "sda" ∧ d.size = 5368709120 :=
  (C5_filter_correct
      [BlockDevice.mk "sda" 5368709120 "disk",
       BlockDevice.mk "sda1" 5368708096 "part"] "sda").2
    5368709120 (by decide)

/-- C6: an unavailable or unparsable host query makes the enumerator
produce the query error and never any mapping, partial or otherwise; a
successful mapping only arises from a fully parsed record list. -/
theorem C6_query_error :
    disks_size_run none = Except.error QueryError.queryError ∧
    (∀ m : List (String × Nat), disks_size_run none ≠ Except.ok m) ∧
    (∀ (raw : Option (List BlockDevice)) (m : List (String × Nat)),
      disks_size_run raw = Except.ok m →
      ∃ blk, raw = some blk ∧ m = disks_size blk) := by
  refine ⟨rfl, fun m h => by simp [disks_size_run] at h, ?_⟩
  intro raw m h
  cases raw with
  | none => simp [disks_size_run] at h
  | some blk =>
    refine ⟨blk, rfl, ?_⟩
    simpa [disks_size_run] using h.symm

/-- C6 witness: a parsed empty record list yields the empty mapping
through the success characterisation. -/
theorem C6_query_error_witness :
    ∃ blk, (some ([] : List BlockDevice)) = some blk
      ∧ ([] : List (String × Nat)) = disks_size blk :=
  C6_query_error.2.2 (some []) [] rfl

/-- C7 counterexample: the constant the selector compares sizes against
is not CONST_RESERVED_SPACE: CONST_RESERVED_SPACE is 271581184 bytes,
not 2147483648, and a disk strictly larger than CONST_RESERVED_SPACE is
nevertheless rejected by `find_disk`. -/
theorem C7_counterexample :
    CONST_RESERVED_SPACE = 271581184 ∧
    CONST_RESERVED_SPACE ≠ 2147483648 ∧
    find_disk [("sda", 271581185)] = ("", 0) := by
  refine ⟨by norm_num [CONST_RESERVED_SPACE],
    by norm_num [CONST_RESERVED_SPACE], by decide⟩

/-- C7 (amended): the selection threshold is the literal 2147483648
(2 GiB) hardcoded inside `find_disk`, as the single-disk behaviour
shows, while CONST_RESERVED_SPACE equals (2+1+256)*1024^2 = 271581184
bytes and enters only the rootfs-size computation. -/
theorem C7_threshold_constants :
    (∀ s : Nat, find_disk [("sda", s)]
      = if 2147483648 < s then ("sda", s) else ("", 0)) ∧
    CONST_RESERVED_SPACE = (2 + 1 + 256) * 1024 ^ 2 ∧
    (∀ s : Nat,
      rootfs_size s = Int.fdiv ((s : Int) - 271581184) 1024) := by
  refine ⟨?_, rfl, ?_⟩
  · intro s
    by_cases h : 2147483648 < s
    · simp [find_disk, find_disk_loop, h]
    · simp [find_disk, find_disk_loop, h]
  · intro s
    have : (CONST_RESERVED_SPACE : Int) = 271581184 := by
      norm_num [CONST_RESERVED_SPACE]
    rw [rootfs_size, this]

/-- C8 counterexample: `network_cleanup` does not catch every failure:
when the udev persistent-net rules file exists but cannot be removed,
the error propagates to the caller. -/
theorem C8_counterexample :
    network_cleanup ⟨false, false, true, true⟩
      = Except.error CleanupError.udev_unlink_error := rfl

/-- C8 (amended): failures inside the try block around the 50-cloud-init
cleanup are caught and only logged — the overall outcome is always that
of the udev block alone — and whenever the udev unlink cannot fail,
`network_cleanup` returns success whatever else the host state holds. -/
theorem C8_cleanup_catch :
    (∀ s : HostState, network_cleanup s = udev_rules_cleanup s) ∧
    (∀ s : HostState, s.udev_unlink_fails = false →
      network_cleanup s = Except.ok ()) := by
  have hall : ∀ s : HostState, network_cleanup s = udev_rules_cleanup s := by
    intro s
    unfold network_cleanup
    rcases net_config_cleanup s with e | u
    · rfl
    · rfl
  refine ⟨hall, ?_⟩
  intro s h
  rw [hall s]
  unfold udev_rules_cleanup
  rw [h]
  by_cases he : s.udev_rules_exists
  · rw [if_pos he, if_neg (by simp)]
  · rw [if_neg he]

/-- C8 witness: a host where the cloud-init config cleanup fails but the
udev unlink succeeds still ends in success. -/
theorem C8_cleanup_catch_witness :
    network_cleanup ⟨true, true, true, false⟩ = Except.ok () :=
  C8_cleanup_catch.2 ⟨true, true, true, false⟩ rfl

/-- C9: the empty selection is the ("", 0) sentinel; the install handler
performs its disk actions exactly when the returned name is nonempty,
and when no device qualifies the handler performs no disk mutation at
all. -/
theorem C9_abort_on_sentinel :
    (∀ r : String × Nat, handle_disk_actions r = [] ↔ r.1 = "") ∧
    (∀ l : List (String × Nat),
      (∀ p ∈ l, ¬ 2147483648 < p.2) →
      find_disk l = ("", 0) ∧ handle_disk_actions (find_disk l) = []) := by
  have hiff : ∀ r : String × Nat, handle_disk_actions r = [] ↔ r.1 = "" := by
    intro r
    unfold handle_disk_actions
    by_cases h : r.1 = ""
    · rw [if_pos h]
      simp [h]
    · rw [if_neg h]
      simp [h]
  refine ⟨hiff, ?_⟩
  intro l h
  have hs : find_disk l = ("", 0) := by
    rw [find_disk_eq_find?]
    have h1 : l.find? (fun p => decide (2147483648 < p.2)) = none := by
      rw [List.find?_eq_none]
      intro p hp
      simpa using h p hp
    rw [h1]
    rfl
  exact ⟨hs, by rw [hs]; rfl⟩

/-- C9 witness at the no-qualifier input {"sda": 1000000000}. -/
theorem C9_abort_on_sentinel_witness :
    find_disk [("sda", 1000000000)] = ("", 0) ∧
    handle_disk_actions (find_disk [("sda", 1000000000)]) = [] :=
  C9_abort_on_sentinel.2 [("sda", 1000000000)] (by decide)

/-- C10: for every target size strictly above the 2147483648-byte
selection threshold, the rootfs size (target minus
CONST_RESERVED_SPACE, floor-divided by 1024) is strictly positive, and
the difference is at least 1024 bytes. -/
theorem C10_rootfs_positive :
    ∀ s : Nat, 2147483648 < s →
      0 < rootfs_size s ∧ 1024 ≤ (s : Int) - CONST_RESERVED_SPACE := by
  intro s hs
  have hc : (CONST_RESERVED_SPACE : Int) = 271581184 := by
    norm_num [CONST_RESERVED_SPACE]
  have hs' : (2147483649 : Int) ≤ (s : Int) := by exact_mod_cast hs
  constructor
  · rw [rootfs_size, Int.fdiv_eq_ediv _ (by norm_num)]
    rw [hc]
    omega
  · rw [hc]
    omega

/-- C10 witness at the threshold successor 2147483649. -/
theorem C10_rootfs_positive_witness :
    0 < rootfs_size 2147483649 ∧
      1024 ≤ ((2147483649 : Nat) : Int) - CONST_RESERVED_SPACE :=
  C10_rootfs_positive 2147483649 (by norm_num)
